import Mathlib

/-!
Shallow embedding of the 20-digit barcode gate program (`main.py`).

Strings from the program (barcodes, protocol messages, file names) are
modelled as `List Char`; Python slices `s[a:b]` become `(l.drop a).take (b - a)`.
The filesystem database rooted at `BARCODE_DIR` is modelled as the set of
registered tuples `(site_id, special_key, registry_id, numerator)` — a file
`BARCODE_DIR/site/key/registry/num.txt` exists iff the tuple is in the list,
and the site directory `BARCODE_DIR/site` exists iff some tuple for that site
is in the list.  Storage I/O is modelled as always succeeding (`OSError`
branches of the source are out of the model).  Python `str.isdigit` accepts
every character of Unicode numeric type Digit or Decimal — not only the
ASCII decimal digits — so it is modelled by the exact set of codepoints the
Python runtime accepts (Unicode 14.0), embedded as closed codepoint ranges.
-/

/-- Source constant MASTER_KEY_PREFIX = "123456780" (9 digits). -/
def MASTER_KEY_HEAD : List Char := "123456780".toList

/-- Source constant MASTER_KEY_SUFFIX = "12345678" (8 digits). -/
def MASTER_KEY_TAIL : List Char := "12345678".toList

/-- Source constant FILES_TO_KEEP: top-level names spared by the database wipe. -/
def FILES_TO_KEEP : List (List Char) :=
  ["sounds".toList, "main.py".toList, "install.sh".toList,
   "requirements.txt".toList, "install guide barcode.txt".toList]

/-- A registration-store tuple, i.e. the path components of one barcode file
`BARCODE_DIR/site_id/special_key/registry_id/numerator.txt`. -/
structure BTuple where
  site_id : List Char
  special_key : List Char
  registry_id : List Char
  numerator : List Char
deriving DecidableEq

/-- The mutable state of the validating node: the filesystem database (as the
set of registered tuples) together with the process-wide mutable list
VALID_SPECIAL_KEYS. -/
structure StoreState where
  tuples : List BTuple
  validKeys : List (List Char)
deriving DecidableEq

/-- Startup state: empty database, VALID_SPECIAL_KEYS = [""]. -/
def initialStore : StoreState := { tuples := [], validKeys := [[]] }

/-- The decomposition of a 20-digit barcode from the source:
special_key = barcode[0:5], numerator = barcode[5:15],
registry_id = barcode[15:17], site_id = barcode[17:20]. -/
def decompose (b : List Char) : BTuple :=
  { site_id := (b.drop 17).take 3
    special_key := b.take 5
    registry_id := (b.drop 15).take 2
    numerator := (b.drop 5).take 10 }

/-- barcode.startswith(MASTER_KEY_PREFIX) and barcode.endswith(MASTER_KEY_SUFFIX). -/
def isMasterKey (b : List Char) : Bool :=
  MASTER_KEY_HEAD.isPrefixOf b && MASTER_KEY_TAIL.isSuffixOf b

/-- barcode[len(MASTER_KEY_PREFIX):-len(MASTER_KEY_SUFFIX)], the site id
embedded in a master key. -/
def site_id_from_master (b : List Char) : List Char :=
  (b.drop MASTER_KEY_HEAD.length).take (b.length - MASTER_KEY_HEAD.length - MASTER_KEY_TAIL.length)

/-- The closed codepoint ranges on which Python str.isdigit is True: the
characters of Unicode numeric type Digit or Decimal (Unicode 14.0), e.g. the
ASCII digits 48-57 but also the superscripts 178-179 and 185 and every
script's decimal-digit run. -/
def pyDigitRanges : List (Nat × Nat) :=
  [(48, 57), (178, 179), (185, 185), (1632, 1641), (1776, 1785),
   (1984, 1993), (2406, 2415), (2534, 2543), (2662, 2671), (2790, 2799),
   (2918, 2927), (3046, 3055), (3174, 3183), (3302, 3311), (3430, 3439),
   (3558, 3567), (3664, 3673), (3792, 3801), (3872, 3881), (4160, 4169),
   (4240, 4249), (4969, 4977), (6112, 6121), (6160, 6169), (6470, 6479),
   (6608, 6618), (6784, 6793), (6800, 6809), (6992, 7001), (7088, 7097),
   (7232, 7241), (7248, 7257), (8304, 8304), (8308, 8313), (8320, 8329),
   (9312, 9320), (9332, 9340), (9352, 9360), (9450, 9450), (9461, 9469),
   (9471, 9471), (10102, 10110), (10112, 10120), (10122, 10130),
   (42528, 42537), (43216, 43225), (43264, 43273), (43472, 43481),
   (43504, 43513), (43600, 43609), (44016, 44025), (65296, 65305),
   (66720, 66729), (68160, 68163), (68912, 68921), (69216, 69224),
   (69714, 69722), (69734, 69743), (69872, 69881), (69942, 69951),
   (70096, 70105), (70384, 70393), (70736, 70745), (70864, 70873),
   (71248, 71257), (71360, 71369), (71472, 71481), (71904, 71913),
   (72016, 72025), (72784, 72793), (73040, 73049), (73120, 73129),
   (92768, 92777), (92864, 92873), (93008, 93017), (120782, 120831),
   (123200, 123209), (123632, 123641), (125264, 125273), (127232, 127242),
   (130032, 130041)]

/-- Python str.isdigit on one character: its codepoint lies in one of the
digit ranges. -/
def pyIsDigit (c : Char) : Bool :=
  pyDigitRanges.any (fun r => decide (r.1 ≤ c.toNat) && decide (c.toNat ≤ r.2))

/-- len(barcode) == 20 and barcode.isdigit(): the length makes the string
non-empty, so str.isdigit is the conjunction of pyIsDigit over the
characters. -/
def isWellFormed (b : List Char) : Bool :=
  decide (b.length = 20) && b.all pyIsDigit

/-- os.path.isdir(os.path.join(BARCODE_DIR, site)): the site directory exists
iff some registered tuple lives under it. -/
def siteExists (s : StoreState) (site : List Char) : Bool :=
  s.tuples.any (fun u => decide (u.site_id = site))

/-- special_key in VALID_SPECIAL_KEYS. -/
def keyKnown (s : StoreState) (key : List Char) : Bool :=
  s.validKeys.any (fun k => decide (k = key))

/-- os.path.exists(barcode_file_path): the tuple's marker file exists. -/
def tupleExists (s : StoreState) (t : BTuple) : Bool :=
  s.tuples.any (fun u => decide (u = t))

/-- create_barcode_file: os.makedirs(..., exist_ok=True) plus creation of the
numerator marker file, returning True; idempotent on an existing tuple.
I/O failure (the OSError branch) is outside the model. -/
def create_barcode_file (s : StoreState) (t : BTuple) : StoreState × Bool :=
  if tupleExists s t then (s, true) else ({ s with tuples := t :: s.tuples }, true)

/-- process_barcode_locally(barcode, button_is_pressed): the validation engine.
Returns the successor store state and the admit/deny verdict. -/
def process_barcode_locally (s : StoreState) (barcode : List Char)
    (button_is_pressed : Bool) : StoreState × Bool :=
  if isWellFormed barcode = false then (s, false)
  else if isMasterKey barcode then
    (s, siteExists s (site_id_from_master barcode))
  else if button_is_pressed then
    (if tupleExists s (decompose barcode) = false then
      (let s1 :=
        if keyKnown s (decompose barcode).special_key then s
        else { s with validKeys := s.validKeys ++ [(decompose barcode).special_key] }
       create_barcode_file s1 (decompose barcode))
     else (s, true))
  else if siteExists s (decompose barcode).site_id = false then (s, false)
  else if keyKnown s (decompose barcode).special_key = false then (s, false)
  else if tupleExists s (decompose barcode) then (s, false)
  else create_barcode_file s (decompose barcode)

/-- SUPERSCRIPT TWO, codepoint 178: Python str.isdigit accepts it although it
is not a decimal digit (Unicode category No, not Nd). -/
def superTwo : Char := '²'

/-- A well-formed non-master barcode used as a concrete test input:
key "12345", numerator "0000000001", registry "01", site "001". -/
def B1 : List Char := "12345000000000101001".toList

/-- A second barcode for the same site/key/registry, numerator "0000000002". -/
def B2 : List Char := "12345000000000201001".toList

/-- A well-formed master key whose embedded site id is "001". -/
def M1 : List Char := "12345678000112345678".toList

/-- A store state holding exactly the tuple of B1, with the seed key list. -/
def storeWithB1 : StoreState := { tuples := [decompose B1], validKeys := [[]] }

/-- A store state holding the tuple of B1 and knowing the key "12345". -/
def storeWithB1Key : StoreState :=
  { tuples := [decompose B1], validKeys := [[], "12345".toList] }

/-- The outcome of one scan event in the client main loop: either the barcode
is dispatched for an admission decision (send_data), or the scan is suppressed
as a duplicate and only the negative-feedback beep is played. -/
inductive ScanAction where
  | dispatch : ScanAction
  | suppressBeep : ScanAction
deriving DecidableEq

/-- One iteration of the barcode branch of Client.start: given the dedup
memory last_barcode, a scanned barcode and the sampled button state, return
the new dedup memory and the action taken. -/
def scanStep (last : Option (List Char)) (barcode : List Char)
    (button_is_pressed : Bool) : Option (List Char) × ScanAction :=
  let is_master := isMasterKey barcode
  if is_master || button_is_pressed then
    ((if is_master then last else some barcode), ScanAction.dispatch)
  else if decide (some barcode ≠ last) then (some barcode, ScanAction.dispatch)
  else (last, ScanAction.suppressBeep)

/-- The colon separator of the wire protocol. -/
def colonChar : Char := ':'

/-- The literal flag text "True" sent by the client. -/
def trueText : List Char := "True".toList

/-- The admit reply token "open". -/
def openText : List Char := "open".toList

/-- The deny reply token "close". -/
def closeText : List Char := "close".toList

/-- Helper for Python str.split(sep) with a one-character separator: returns
the field before the first separator and the list of the remaining fields. -/
def pySplitAux (sep : Char) : List Char → List Char × List (List Char)
  | [] => ([], [])
  | c :: rest =>
    let r := pySplitAux sep rest
    if c = sep then ([], r.1 :: r.2) else (c :: r.1, r.2)

/-- Python message.split(sep) for a one-character separator: always a
non-empty list of fields. -/
def pySplit (sep : Char) (cs : List Char) : List (List Char) :=
  (pySplitAux sep cs).1 :: (pySplitAux sep cs).2

/-- BarcodeTCPHandler.handle on one (stripped, decoded) request payload:
an empty payload returns without a reply (none); otherwise the payload is
split on a colon, parts[0] is the barcode, the flag is true iff there is a
second part equal to "True", and the reply is "open"/"close" after the
validation engine runs.  The enclosing except-block (which swallows faults
without a reply) is outside the model. -/
def handleRequest (s : StoreState) (message : List Char) :
    StoreState × Option (List Char) :=
  if message = [] then (s, none)
  else
    let parts := pySplit colonChar message
    let barcode := parts.headD []
    let button_is_pressed := decide (1 < parts.length) && decide (parts.getD 1 [] = trueText)
    let r := process_barcode_locally s barcode button_is_pressed
    (r.1, some (if r.2 then openText else closeText))

/-- Spec-side reading of the override flag, written from the claim's words:
true iff the payload has a colon-separated second field (the text between the
first colon and the following colon or end) that is exactly "True". -/
def overrideFlagSpec (msg : List Char) : Bool :=
  match msg.dropWhile (fun c => decide (c ≠ colonChar)) with
  | [] => false
  | _ :: rest => decide (rest.takeWhile (fun c => decide (c ≠ colonChar)) = trueText)

/-- A node of the filesystem tree under BARCODE_DIR: a plain file, or a
directory with named children. -/
inductive FSEntry where
  | file : FSEntry
  | dir : List (List Char × FSEntry) → FSEntry

/-- The loop of Client.delete_database, generalized over the preserve list:
walk the top-level entries in order; keep an entry named in keep; otherwise
try to delete the whole entry (shutil.rmtree / os.remove) — on a deletion
failure (the deleteFails oracle) log the name and continue.  Returns the
surviving entries and the error log. -/
def wipe_except (keep : List (List Char)) (deleteFails : List Char → Bool) :
    List (List Char × FSEntry) → List (List Char × FSEntry) × List (List Char)
  | [] => ([], [])
  | (name, e) :: rest =>
    let r := wipe_except keep deleteFails rest
    if keep.any (fun k => decide (k = name)) then ((name, e) :: r.1, r.2)
    else if deleteFails name then ((name, e) :: r.1, name :: r.2)
    else r

/-- Client.delete_database: the wipe with the fixed FILES_TO_KEEP allow-list. -/
def delete_database (deleteFails : List Char → Bool)
    (entries : List (List Char × FSEntry)) :
    List (List Char × FSEntry) × List (List Char) :=
  wipe_except FILES_TO_KEEP deleteFails entries

/-- Helper: the normal-mode branch of the validation engine as a first-match
conditional chain. -/
lemma normal_mode_chain (s : StoreState) (b : List Char)
    (h1 : isWellFormed b = true) (h2 : isMasterKey b = false) :
    process_barcode_locally s b false =
      (if siteExists s (decompose b).site_id = false then (s, false)
       else if keyKnown s (decompose b).special_key = false then (s, false)
       else if tupleExists s (decompose b) then (s, false)
       else ({ s with tuples := decompose b :: s.tuples }, true)) := by
  simp only [process_barcode_locally, h1, h2, Bool.true_eq_false, if_false,
    Bool.false_eq_true, if_true, if_false]
  split
  · rfl
  · split
    · rfl
    · split
      · rfl
      · rename_i h5
        simp only [create_barcode_file, h5, if_false, Bool.false_eq_true]

/-- Claim C1: for a well-formed 20-digit code that is not a master key,
the normal-mode decision (button not pressed) denies when the site directory
is missing, otherwise denies when the special key is unknown, otherwise
denies when the tuple is already registered, and otherwise registers the
tuple and admits. -/
theorem normalModeOrder (s : StoreState) (b : List Char)
    (h1 : isWellFormed b = true) (h2 : isMasterKey b = false) :
    process_barcode_locally s b false =
      (if siteExists s (decompose b).site_id = false then (s, false)
       else if keyKnown s (decompose b).special_key = false then (s, false)
       else if tupleExists s (decompose b) then (s, false)
       else ({ s with tuples := decompose b :: s.tuples }, true)) :=
  normal_mode_chain s b h1 h2

/-- Witness for C1 at a concrete input: from the startup store, the normal
scan of B1 is denied because its site directory does not exist. -/
theorem normalModeOrder_witness :
    process_barcode_locally initialStore B1 false = (initialStore, false) := by
  rw [normalModeOrder initialStore B1 (by decide) (by decide)]
  decide
/-- Counterexample to claim C2 as stated: M1 is a well-formed 20-digit code,
yet with the override button pressed the engine denies it from the startup
store, because the master-key branch is tested before the override branch and
M1 embeds a site ("001") with no directory. -/
theorem overrideMasterDenied_cex :
    process_barcode_locally initialStore M1 true = (initialStore, false) := by
  decide

/-- Claim C2 (amended to codes not matching the master-key shape): with the
button pressed the engine always admits; when the tuple is absent it inserts
it, appending the special key to VALID_SPECIAL_KEYS when the key is new, and
when the tuple is present nothing is inserted. -/
theorem overrideAdmits (s : StoreState) (b : List Char)
    (h1 : isWellFormed b = true) (h2 : isMasterKey b = false) :
    process_barcode_locally s b true =
      (if tupleExists s (decompose b) then (s, true)
       else ((if keyKnown s (decompose b).special_key then
                { s with tuples := decompose b :: s.tuples }
              else { tuples := decompose b :: s.tuples,
                     validKeys := s.validKeys ++ [(decompose b).special_key] }),
             true)) := by
  cases h3 : tupleExists s (decompose b) with
  | true => simp [process_barcode_locally, h1, h2, h3]
  | false =>
    cases h4 : keyKnown s (decompose b).special_key with
    | true =>
      simp only [tupleExists] at h3
      simp [process_barcode_locally, h1, h2, h3, h4, create_barcode_file, tupleExists]
    | false =>
      simp only [tupleExists] at h3
      simp [process_barcode_locally, h1, h2, h3, h4, create_barcode_file, tupleExists]

/-- Witness for the amended C2: from the startup store, an override scan of B1
admits, registers the tuple and records the new special key "12345". -/
theorem overrideAdmits_witness :
    process_barcode_locally initialStore B1 true =
      ({ tuples := [decompose B1], validKeys := [[], "12345".toList] }, true) := by
  rw [overrideAdmits initialStore B1 (by decide) (by decide)]
  decide
/-- Claim C3: a well-formed code matching the master-key shape admits, under
either button state, exactly when the embedded site id has a site directory;
the store state is never changed (no auto-provisioning). -/
theorem masterKeyAdmitsIffSite (s : StoreState) (b : List Char) (o : Bool)
    (h1 : isWellFormed b = true) (h2 : isMasterKey b = true) :
    process_barcode_locally s b o = (s, siteExists s (site_id_from_master b)) := by
  simp [process_barcode_locally, h1, h2]

/-- Witness for C3: the master key M1 admits without mutation once site "001"
has a registered tuple, and is denied without mutation from the empty store. -/
theorem masterKeyAdmitsIffSite_witness :
    process_barcode_locally storeWithB1 M1 false = (storeWithB1, true) := by
  rw [masterKeyAdmitsIffSite storeWithB1 M1 false (by decide) (by decide)]
  decide

/-- Counterexample to claim C4 as stated: the 20-character string of
SUPERSCRIPT TWO contains no decimal digit at all, yet it passes the
length-and-isdigit check (str.isdigit accepts superscripts), and with the
override button pressed the engine admits it — and even inserts a tuple —
instead of denying. -/
theorem unicodeDigitAdmitted_cex :
    Char.isDigit superTwo = false ∧
    pyIsDigit superTwo = true ∧
    (process_barcode_locally initialStore (List.replicate 20 superTwo) true).2 = true ∧
    (process_barcode_locally initialStore (List.replicate 20 superTwo) true).1 ≠ initialStore := by
  decide

/-- Claim C4 (amended): an input whose length is not 20, or that contains a
character rejected by the program's digit check (Python str.isdigit), is
denied under both button states, with no store access or mutation. -/
theorem malformedDenies (s : StoreState) (b : List Char) (o : Bool)
    (h : isWellFormed b = false) :
    process_barcode_locally s b o = (s, false) := by
  simp [process_barcode_locally, h]

/-- Witness for C4: the short input "123" is denied with the store untouched,
even with the override button pressed. -/
theorem malformedDenies_witness :
    process_barcode_locally initialStore ("123".toList) true = (initialStore, false) := by
  rw [malformedDenies initialStore ("123".toList) true (by decide)]
/-- Claim C5: for a well-formed non-master code whose site directory exists,
whose special key is known, and whose tuple is not yet registered, the first
normal-mode call admits and registers the tuple, and the immediately repeated
call on the resulting store denies. -/
theorem antiReplay (s : StoreState) (b : List Char)
    (h1 : isWellFormed b = true) (h2 : isMasterKey b = false)
    (h3 : siteExists s (decompose b).site_id = true)
    (h4 : keyKnown s (decompose b).special_key = true)
    (h5 : tupleExists s (decompose b) = false) :
    process_barcode_locally s b false = ({ s with tuples := decompose b :: s.tuples }, true) ∧
    process_barcode_locally { s with tuples := decompose b :: s.tuples } b false =
      ({ s with tuples := decompose b :: s.tuples }, false) := by
  constructor
  · rw [normal_mode_chain s b h1 h2]
    simp [h3, h4, h5]
  · rw [normal_mode_chain { s with tuples := decompose b :: s.tuples } b h1 h2]
    have hsite : siteExists { s with tuples := decompose b :: s.tuples } (decompose b).site_id = true := by
      simp [siteExists]
    have hkey : keyKnown { s with tuples := decompose b :: s.tuples } (decompose b).special_key = true := by
      simpa [keyKnown] using h4
    have hex : tupleExists { s with tuples := decompose b :: s.tuples } (decompose b) = true := by
      simp [tupleExists]
    simp [hsite, hkey, hex]
/-- Witness for C5: with B1's tuple registered and key "12345" known, the
fresh code B2 is admitted and registered once, and its immediate rescan is
denied. -/
theorem antiReplay_witness :
    process_barcode_locally storeWithB1Key B2 false =
      ({ storeWithB1Key with tuples := decompose B2 :: storeWithB1Key.tuples }, true) ∧
    process_barcode_locally { storeWithB1Key with tuples := decompose B2 :: storeWithB1Key.tuples } B2 false =
      ({ storeWithB1Key with tuples := decompose B2 :: storeWithB1Key.tuples }, false) :=
  antiReplay storeWithB1Key B2 (by decide) (by decide) (by decide) (by decide) (by decide)

/-- Claim C6: a denying call leaves the store state (registered tuples and
special-key list) unchanged, and a master-key call leaves it unchanged under
either verdict; hence mutation happens only on admitting, non-master calls. -/
theorem effectsOnlyOnAdmission (s : StoreState) (b : List Char) (o : Bool) :
    ((process_barcode_locally s b o).2 = false → (process_barcode_locally s b o).1 = s) ∧
    (isMasterKey b = true → (process_barcode_locally s b o).1 = s) := by
  cases h1 : isWellFormed b with
  | false => simp [process_barcode_locally, h1]
  | true =>
    cases h2 : isMasterKey b with
    | true => simp [process_barcode_locally, h1, h2]
    | false =>
      cases o with
      | true =>
        cases h3 : tupleExists s (decompose b) with
        | true => simp [process_barcode_locally, h1, h2, h3]
        | false =>
          simp [process_barcode_locally, create_barcode_file, h1, h2, h3,
            apply_ite Prod.snd]
      | false =>
        cases h3 : siteExists s (decompose b).site_id with
        | false => simp [process_barcode_locally, h1, h2, h3]
        | true =>
          cases h4 : keyKnown s (decompose b).special_key with
          | false => simp [process_barcode_locally, h1, h2, h3, h4]
          | true =>
            cases h5 : tupleExists s (decompose b) with
            | true => simp [process_barcode_locally, h1, h2, h3, h4, h5]
            | false =>
              simp [process_barcode_locally, create_barcode_file, h1, h2, h3,
                h4, h5, apply_ite Prod.snd]

/-- Witness for C6: the denied normal scan of B1 from the startup store leaves
the store unchanged. -/
theorem effectsOnlyOnAdmission_witness :
    (process_barcode_locally initialStore B1 false).1 = initialStore :=
  (effectsOnlyOnAdmission initialStore B1 false).1 (by decide)
/-- Claim C8: for a non-master code c not equal to the current dedup memory,
scanning c with the button released dispatches it and sets the dedup memory
to c; scanning c again immediately is suppressed — no dispatch, only the
negative-feedback beep — and the dedup memory stays c. -/
theorem duplicateSuppressed (last : Option (List Char)) (c : List Char)
    (h1 : isMasterKey c = false) (h2 : last ≠ some c) :
    scanStep last c false = (some c, ScanAction.dispatch) ∧
    scanStep (some c) c false = (some c, ScanAction.suppressBeep) := by
  have h2' : some c ≠ last := fun e => h2 e.symm
  constructor
  · simp [scanStep, h1, h2']
  · simp [scanStep, h1]

/-- Witness for C8: from the startup dedup memory, B1 is dispatched and then
its immediate duplicate is suppressed. -/
theorem duplicateSuppressed_witness :
    scanStep none B1 false = (some B1, ScanAction.dispatch) ∧
    scanStep (some B1) B1 false = (some B1, ScanAction.suppressBeep) :=
  duplicateSuppressed none B1 (by decide) (by decide)

/-- Claim C9: the wipe keeps exactly the top-level entries whose name is on
the preserve list or whose deletion fails, each with its whole subtree, and
logs exactly the failed names in order; so with no deletion failures every
entry not on the preserve list is removed whatever its nesting depth, and a
per-entry failure is logged and does not stop the remaining deletions. -/
theorem wipeExceptSpec (keep : List (List Char)) (deleteFails : List Char → Bool)
    (entries : List (List Char × FSEntry)) :
    (wipe_except keep deleteFails entries).1 =
      entries.filter (fun p => keep.any (fun k => decide (k = p.1)) || deleteFails p.1) ∧
    (wipe_except keep deleteFails entries).2 =
      (entries.filter
        (fun p => !(keep.any (fun k => decide (k = p.1))) && deleteFails p.1)).map Prod.fst := by
  induction entries with
  | nil => exact ⟨rfl, rfl⟩
  | cons hd tl ih =>
    obtain ⟨name, e⟩ := hd
    cases hk : keep.any (fun k => decide (k = name)) with
    | true =>
      simp only [wipe_except, hk, if_true, List.filter, ih.1, ih.2, Bool.true_or,
        Bool.not_true, Bool.false_and, List.map]
      exact ⟨trivial, trivial⟩
    | false =>
      cases hf : deleteFails name with
      | true =>
        simp only [wipe_except, hk, hf, if_true, if_false, Bool.false_eq_true,
          List.filter, ih.1, ih.2, Bool.false_or, Bool.not_false, Bool.true_and,
          List.map]
        exact ⟨trivial, trivial⟩
      | false =>
        simp only [wipe_except, hk, hf, if_false, Bool.false_eq_true,
          List.filter, ih.1, ih.2, Bool.false_or, Bool.not_false, Bool.true_and,
          List.map]
        exact ⟨trivial, trivial⟩
/-- Helper: the first field of the Python split is the text before the first
separator. -/
lemma pySplitAux_fst (sep : Char) (cs : List Char) :
    (pySplitAux sep cs).1 = cs.takeWhile (fun c => decide (c ≠ sep)) := by
  induction cs with
  | nil => rfl
  | cons c rest ih =>
    by_cases h : c = sep
    · simp [pySplitAux, h, List.takeWhile_cons]
    · simp [pySplitAux, h, List.takeWhile_cons, ih]

/-- Helper: the remaining fields of the Python split are the split of the text
after the first separator, when there is one. -/
lemma pySplitAux_snd (sep : Char) (cs : List Char) :
    (pySplitAux sep cs).2 =
      (match cs.dropWhile (fun c => decide (c ≠ sep)) with
       | [] => ([] : List (List Char))
       | _ :: rest => pySplit sep rest) := by
  induction cs with
  | nil => rfl
  | cons c rest ih =>
    by_cases h : c = sep
    · simp [pySplitAux, h, List.dropWhile_cons, pySplit]
    · simp [pySplitAux, h, List.dropWhile_cons, ih]
/-- Claim C10: on a non-empty payload the handler validates exactly the text
before the first colon, with the override flag true iff the colon-separated
second field is exactly "True" (any other flag text, or no colon at all,
gives override=false), and replies "open"/"close" with the engine's verdict. -/
theorem handlerFlagParsing (s : StoreState) (msg : List Char) (h : msg ≠ []) :
    handleRequest s msg =
      ((process_barcode_locally s (msg.takeWhile (fun c => decide (c ≠ colonChar)))
          (overrideFlagSpec msg)).1,
       some (if (process_barcode_locally s (msg.takeWhile (fun c => decide (c ≠ colonChar)))
                  (overrideFlagSpec msg)).2
             then openText else closeText)) := by
  have hsnd := pySplitAux_snd colonChar msg
  have hfst := pySplitAux_fst colonChar msg
  cases hd : msg.dropWhile (fun c => decide (c ≠ colonChar)) with
  | nil =>
    rw [hd] at hsnd
    simp only [] at hsnd
    simp [handleRequest, h, pySplit, hsnd, hfst, overrideFlagSpec]
    simp only [decide_not] at hd
    rw [hd]
    exact ⟨rfl, rfl⟩
  | cons c rest =>
    rw [hd] at hsnd
    simp only [] at hsnd
    simp [handleRequest, h, pySplit, hsnd, hfst, overrideFlagSpec,
      pySplitAux_fst colonChar rest]
    simp only [decide_not] at hd
    rw [hd]
    exact ⟨rfl, rfl⟩
/-- Witness for C10: the request "B1:True" is parsed with override=true and
admitted from the startup store through the override path. -/
theorem handlerFlagParsing_witness :
    handleRequest initialStore (B1 ++ [colonChar] ++ trueText) =
      ((process_barcode_locally initialStore
          ((B1 ++ [colonChar] ++ trueText).takeWhile (fun c => decide (c ≠ colonChar)))
          (overrideFlagSpec (B1 ++ [colonChar] ++ trueText))).1,
       some (if (process_barcode_locally initialStore
                  ((B1 ++ [colonChar] ++ trueText).takeWhile (fun c => decide (c ≠ colonChar)))
                  (overrideFlagSpec (B1 ++ [colonChar] ++ trueText))).2
             then openText else closeText)) :=
  handlerFlagParsing initialStore (B1 ++ [colonChar] ++ trueText) (by decide)

/-- Counterexample to claim C7 as stated: an empty payload is not answered
with the deny token — the handler returns without any reply at all. -/
theorem emptyPayloadNoReply_cex :
    (handleRequest initialStore []).2 = none ∧
    (handleRequest initialStore []).2 ≠ some closeText := by
  decide

/-- Claim C7 (amended): an empty payload is dropped without a reply and
without crashing; every non-empty payload — including one whose flag text is
unparsable, which is processed as override=false — is answered with exactly
one of the tokens "open"/"close". -/
theorem handlerMalformed (s : StoreState) (msg : List Char) :
    (msg = [] → handleRequest s msg = (s, none)) ∧
    (msg ≠ [] → (handleRequest s msg).2 = some openText ∨
                (handleRequest s msg).2 = some closeText) := by
  constructor
  · intro he
    simp [handleRequest, he]
  · intro hne
    simp only [handleRequest, if_neg hne]
    split
    · left; rfl
    · right; rfl

/-- Witness for C7's amended claim: the empty payload gets no reply, and the
garbled payload "abc" still gets one of the two reply tokens. -/
theorem handlerMalformed_witness :
    handleRequest initialStore [] = (initialStore, none) ∧
    ((handleRequest initialStore ("abc".toList)).2 = some openText ∨
     (handleRequest initialStore ("abc".toList)).2 = some closeText) :=
  ⟨(handlerMalformed initialStore []).1 rfl,
   (handlerMalformed initialStore ("abc".toList)).2 (by decide)⟩
